import Mathlib

set_option autoImplicit false

/-!
Shallow embedding of the orchestration core of the AgenticAI BI platform
(`backend/mcp_client.py`, `backend/handoff_manager.py`,
`backend/workflow_orchestration_engine.py`), together with proofs about the
properties its specification states.

External effects (HTTP requests, the wall clock, uuid generation) are passed
in explicitly: every function below is the pure part of the corresponding
Python method, with the outcome of each I/O action supplied as an argument.
Machine timestamps are modelled as natural numbers of seconds.
-/

namespace AgenticBI

/-! ## Small Python-flavoured helpers -/

/-- Substring occurrence on character lists: `pat` occurs somewhere in the list. -/
def listInfixOf (pat : List Char) : List Char → Bool
  | [] => pat.isEmpty
  | c :: rest => pat.isPrefixOf (c :: rest) || listInfixOf pat rest

/-- Python's `pat in s` substring test. -/
def strContains (s pat : String) : Bool :=
  listInfixOf pat.toList s.toList

/-- Python `s.lower()` (character-wise, kernel-computable). -/
def pyLower (s : String) : String :=
  String.mk (s.data.map Char.toLower)

/-- Python `s.strip()` (whitespace from both ends). -/
def pyStrip (s : String) : String :=
  String.mk (((s.data.dropWhile Char.isWhitespace).reverse.dropWhile Char.isWhitespace).reverse)

/-- Python `s.startswith(pat)`. -/
def strStartsWith (s pat : String) : Bool :=
  pat.toList.isPrefixOf s.toList

/-- Python dict lookup `d.get(k)` on an insertion-ordered association list. -/
def lookupAssoc {α : Type} (k : String) : List (String × α) → Option α
  | [] => none
  | (k2, v) :: rest => if k2 == k then some v else lookupAssoc k rest

/-- Python dict assignment `d[k] = v`: replace the existing binding in place,
or append a new one (insertion order preserved). -/
def setAssoc {α : Type} (k : String) (v : α) : List (String × α) → List (String × α)
  | [] => [(k, v)]
  | (k2, v2) :: rest => if k2 == k then (k, v) :: rest else (k2, v2) :: setAssoc k v rest

/-- Python `del d[k]`: dict keys are unique, so dropping every binding of `k`
coincides with deleting the single one. -/
def removeAssoc {α : Type} (k : String) (l : List (String × α)) : List (String × α) :=
  l.filter (fun p => !(p.1 == k))

/-- JSON-like values as carried around in the Python dicts. -/
inductive JValue where
  | null
  | bool (b : Bool)
  | num (n : Int)
  | str (s : String)
  | arr (elems : List JValue)
  | obj (fields : List (String × JValue))

/-- `v.get(k)` on a JSON object (and `None` on anything else). -/
def jGet (v : JValue) (k : String) : Option JValue :=
  match v with
  | JValue.obj fields => lookupAssoc k fields
  | _ => none

/-- `v[k] = x` on a JSON object (identity on anything else; all call sites
below only ever apply it to dicts). -/
def jSet (v : JValue) (k : String) (x : JValue) : JValue :=
  match v with
  | JValue.obj fields => JValue.obj (setAssoc k x fields)
  | other => other

/-- Python string interpolation of an `Optional[str]`: `None` prints as "None". -/
def pyOptionStr : Option String → String
  | some s => s
  | none => "None"

/-! ## HTTP transport model

One `requests` call either yields a response (status code, body text, and the
result of attempting to parse the body as JSON — `none` models a
`JSONDecodeError`), or raises: a `ConnectionError` or some other exception. -/

inductive HttpOutcome where
  | response (status_code : Nat) (text : String) (json : Option JValue)
  | connectionError
  | raised (msg : String)

/-- The message text of a Python `json.JSONDecodeError` on a non-JSON body. -/
def jsonDecodeErrorMsg : String := "Expecting value: line 1 column 1 (char 0)"

/-! ## `mcp_client.py` — N8nMCPClient -/

/-- Result dict of `N8nMCPClient.trigger_webhook_workflow`. -/
structure McpResult where
  status : String
  result : Option JValue
  message : Option String
  response_text : Option String

/-- `N8nMCPClient.trigger_webhook_workflow(webhook_url, data)`: POST the
payload, then normalize.  A 200 with an empty body yields the stock success
dict; a 200 with a parsable body yields `result = response.json()`; a 200
whose non-empty body fails to parse raises `JSONDecodeError`, which the
blanket `except Exception` turns into a `status="error"` dict; any other
status code yields an error dict with the status in the message. -/
def trigger_webhook_workflow (resp : HttpOutcome) : McpResult :=
  match resp with
  | HttpOutcome.response code text json =>
    if code == 200 then
      if text == "" then
        { status := "success"
          result := some (JValue.obj [("message", JValue.str "Workflow triggered successfully")])
          message := none, response_text := none }
      else
        match json with
        | some v => { status := "success", result := some v, message := none, response_text := none }
        | none => { status := "error", result := none, message := some jsonDecodeErrorMsg, response_text := none }
    else
      { status := "error", result := none
        message := some ("Failed to trigger workflow: " ++ toString code)
        response_text := some text }
  | HttpOutcome.connectionError =>
    { status := "error", result := none
      message := some "Failed to connect to webhook URL. Please check if the webhook URL is correct and accessible."
      response_text := none }
  | HttpOutcome.raised m =>
    { status := "error", result := none, message := some m, response_text := none }

/-- One entry of the external n8n catalog as it appears in the parsed JSON
`data` array (each field may be absent). -/
structure RawWorkflow where
  id : Option String
  name : Option String
  description : Option String
  active : Option Bool

/-- Fetch outcome of the catalog GET in `list_workflows`: a response carries
the body text plus the parse of the body (`none` = `JSONDecodeError`; a parse
yields the `data` array, defaulted to `[]` when the key is missing). -/
inductive CatalogFetch where
  | response (status_code : Nat) (text : String) (data : Option (List RawWorkflow))
  | connectionError
  | raised (msg : String)

/-- One workflow dict as normalized by `list_workflows`. -/
structure WorkflowSummary where
  id : Option String
  name : String
  description : String
  active : Bool

/-- Result dict of `N8nMCPClient.list_workflows`. -/
structure ListWorkflowsResult where
  status : String
  workflows : List WorkflowSummary
  source : Option String
  message : Option String

/-- `workflow.get('name', 'Unnamed Workflow')` etc. -/
def normalizeWorkflow (w : RawWorkflow) : WorkflowSummary :=
  { id := w.id
    name := w.name.getD "Unnamed Workflow"
    description := w.description.getD "No description"
    active := w.active.getD false }

/-- The three hard-coded sample workflows `list_workflows` substitutes when it
detects Cloudflare Access interference or an unparsable body. -/
def sampleWorkflows : List WorkflowSummary :=
  [ { id := some "sample-1", name := "Data Processing Pipeline"
      description := "Automated data processing and transformation workflow", active := true }
  , { id := some "sample-2", name := "Customer Notification System"
      description := "Sends automated notifications to customers based on triggers", active := true }
  , { id := some "sample-3", name := "Report Generation Workflow"
      description := "Generates and distributes business reports automatically", active := false } ]

/-- The Cloudflare-interstitial test applied to a 200 body:
`response.text.strip().startswith('<!DOCTYPE html') or "Cloudflare Access" in response.text`. -/
def cloudflareBlocked (text : String) : Bool :=
  strStartsWith (pyStrip text) "<!DOCTYPE html" || strContains text "Cloudflare Access"

/-- `N8nMCPClient.list_workflows()`: GET the catalog; on a 200 either detect a
Cloudflare interstitial (sample data), parse the body (normalized entries), or
fail to parse (sample data again); on 403 or a Cloudflare body, sample data;
on any other status, transport failure, or other exception, an error dict. -/
def list_workflows (fetch : CatalogFetch) : ListWorkflowsResult :=
  match fetch with
  | CatalogFetch.response code text data =>
    if code == 200 then
      if cloudflareBlocked text then
        { status := "success", workflows := sampleWorkflows, source := some "sample_data", message := none }
      else
        match data with
        | some entries =>
          { status := "success", workflows := entries.map normalizeWorkflow
            source := some "n8n_api", message := none }
        | none =>
          { status := "success", workflows := sampleWorkflows, source := some "sample_data", message := none }
    else if code == 403 || strContains text "Cloudflare Access" then
      { status := "success", workflows := sampleWorkflows, source := some "sample_data", message := none }
    else
      { status := "error", workflows := []
        source := none
        message := some ("Failed to fetch workflows from n8n API: " ++ toString code) }
  | CatalogFetch.connectionError =>
    { status := "error", workflows := [], source := none
      message := some "Failed to connect to n8n API. Please check if n8n is running and the API URL is correct." }
  | CatalogFetch.raised m =>
    { status := "error", workflows := [], source := none, message := some m }

/-! ## `handoff_manager.py` — HandoffManager -/

/-- `HandoffStatus` enum. -/
inductive HandoffStatus where
  | pending | in_progress | completed | failed | cancelled | workflow_executing
deriving DecidableEq

/-- The `.value` string of each `HandoffStatus` member (the dicts store these). -/
def HandoffStatus.value : HandoffStatus → String
  | pending => "pending"
  | in_progress => "in_progress"
  | completed => "completed"
  | failed => "failed"
  | cancelled => "cancelled"
  | workflow_executing => "workflow_executing"

/-- `HandoffManager._map_workflow_to_agent(workflow_name, workflow)`: the
priority-ordered keyword chain over the lower-cased workflow name; the first
matching branch wins; no match maps to `None`. -/
def map_workflow_to_agent (workflow_name : String) : Option String :=
  if strContains workflow_name "gerald" || strContains workflow_name "handoff" then
    some "data_analysis"
  else if strContains workflow_name "homeautomation" || strContains workflow_name "home automation" then
    some "home_automation"
  else if ["data", "analysis", "insights", "metrics", "report"].any (fun k => strContains workflow_name k) then
    some "data_analysis"
  else if ["document", "process", "extract", "upload"].any (fun k => strContains workflow_name k) then
    some "document_processing"
  else if ["task", "project", "manage", "organize"].any (fun k => strContains workflow_name k) then
    some "task_management"
  else if ["approval", "review", "authorize"].any (fun k => strContains workflow_name k) then
    some "approval_workflow"
  else if ["report", "generate", "create", "document"].any (fun k => strContains workflow_name k) then
    some "report_generation"
  else
    none

/-- `HandoffManager._extract_webhook_path(workflow)` applied to an entry of
the refresh loop.  Those entries come from `list_workflows`, which strips the
`nodes` key, so `workflow.get("nodes", [])` is always `[]` and the
webhook-node scan finds nothing; the remaining logic is the Home Automation
special case and the id-based default (`workflow.get('id', 'default')` finds
the `id` key present, so a `None` id is interpolated as the string "None"). -/
def extract_webhook_path (w : WorkflowSummary) : Option String :=
  let lname := pyLower w.name
  if strContains lname "homeautomation" || strContains lname "home automation" then
    some "https://n8n.casamccartney.link/webhook/chat"
  else
    some ("https://n8n.casamccartney.link/webhook/" ++ pyOptionStr w.id)

/-- One cached workflow entry as built by `refresh_n8n_workflows`. -/
structure CachedWorkflow where
  id : Option String
  name : String
  active : Bool
  description : String
  webhook_path : Option String

/-- The cache entry built from a catalog workflow dict. -/
def mkCachedWorkflow (w : WorkflowSummary) : CachedWorkflow :=
  { id := w.id, name := w.name, active := w.active
    description := w.description, webhook_path := extract_webhook_path w }

/-- `intent_analysis` dict as consumed by `should_handoff` / `initiate_handoff`
(confidence is a float compared but never computed with, so a rational carries
it faithfully). -/
structure IntentAnalysis where
  confidence : Rat
  intent : String
  user_message : String

/-- The result dicts of `_trigger_gerald_workflow` /
`_trigger_home_automation_workflow`. -/
structure TriggerResult where
  success : Bool
  message : String
  workflow_response : Option JValue
  status_code : Option Nat
  executed : Option Bool

/-- One `handoff_data` dict. -/
structure HandoffData where
  handoff_id : String
  original_session_id : String
  specialized_session_id : String
  target_agent_type : String
  user_message : String
  intent : String
  status : String
  created_at : Nat
  handoff_type : String
  available_workflows : List CachedWorkflow
  workflow_count : Nat
  gerald_workflow_triggered : Option Bool
  gerald_webhook_result : Option TriggerResult
  home_automation_workflow_triggered : Option Bool
  home_automation_webhook_result : Option TriggerResult
  executing_workflow_id : Option String
  workflow_result : Option JValue
  error : Option String
  completed_at : Option Nat
  final_result : Option JValue

/-- The mutable attributes of a `HandoffManager` instance. -/
structure HandoffManagerState where
  active_handoffs : List (String × HandoffData)
  handoff_history : List (String × HandoffData)
  n8n_workflows_cache : List (String × List CachedWorkflow)
  last_workflow_refresh : Option Nat

/-- `HandoffManager.__init__`. -/
def initialState : HandoffManagerState :=
  { active_handoffs := [], handoff_history := [], n8n_workflows_cache := [], last_workflow_refresh := none }

/-- `(datetime.now() - self.last_workflow_refresh).seconds`: the `seconds`
component of a timedelta is the total elapsed seconds reduced modulo one day
(86400), NOT the total elapsed seconds. -/
def timedeltaSeconds (now last : Nat) : Nat :=
  (now - last) % 86400

/-- The TTL test guarding the fetch:
`not force_refresh and self.last_workflow_refresh and (datetime.now() -
self.last_workflow_refresh).seconds < 300` (a `None` timestamp is falsy).

The classification inside `refresh_fetch` is faithful to the source's
indentation slip: the block sits *after* the `for workflow in workflows:`
loop at the loop's own indentation level, so it executes exactly once,
reading the loop variables left over from the final iteration — only the
final catalog entry is ever classified and indexed. -/
def cacheIsFresh (last_refresh : Option Nat) (now : Nat) (force_refresh : Bool) : Bool :=
  match last_refresh with
  | some last => !force_refresh && timedeltaSeconds now last < 300
  | none => false

/-- The fetch arm of `refresh_n8n_workflows` (everything from the
`list_workflows` call on): an error result dict leaves cache and timestamp
untouched; a success result classifies only the final entry (dedent slip) and
replaces the cache wholesale; an empty successful catalog hits the `NameError`
on the unbound loop variable, which the blanket `except` turns into the stale
cache, again leaving both untouched. -/
def refresh_fetch (cache : List (String × List CachedWorkflow)) (last_refresh : Option Nat)
    (now : Nat) (fetch : CatalogFetch) :
    List (String × List CachedWorkflow) × Option Nat × Bool :=
  let result := list_workflows fetch
  if result.status == "success" then
    match result.workflows.getLast? with
    | none =>
      (cache, last_refresh, true)
    | some lastEntry =>
      let assigned := map_workflow_to_agent (pyLower lastEntry.name)
      let organized : List (String × List CachedWorkflow) :=
        match assigned with
        | some agent => [(agent, [mkCachedWorkflow lastEntry])]
        | none => []
      (organized, some now, true)
  else
    (cache, last_refresh, true)

def refresh_core (cache : List (String × List CachedWorkflow)) (last_refresh : Option Nat)
    (now : Nat) (fetch : CatalogFetch) (force_refresh : Bool) :
    List (String × List CachedWorkflow) × Option Nat × Bool :=
  if cacheIsFresh last_refresh now force_refresh then
    (cache, last_refresh, false)
  else
    refresh_fetch cache last_refresh now fetch

/-- What `refresh_n8n_workflows` leaves behind: the updated manager state, the
returned mapping, and whether an external fetch was issued. -/
structure RefreshOutcome where
  state : HandoffManagerState
  workflows : List (String × List CachedWorkflow)
  didFetch : Bool

/-- `HandoffManager.refresh_n8n_workflows(force_refresh)`.  In every branch
the dictionary returned to the caller coincides with the cache left in the
state, so the outcome records it once. -/
def refresh_n8n_workflows (st : HandoffManagerState) (now : Nat) (fetch : CatalogFetch)
    (force_refresh : Bool) : RefreshOutcome :=
  let r := refresh_core st.n8n_workflows_cache st.last_workflow_refresh now fetch force_refresh
  { state := { st with n8n_workflows_cache := r.1, last_workflow_refresh := r.2.1 }
    workflows := r.1
    didFetch := r.2.2 }

/-- The inner loops of `should_handoff`'s direct-workflow check: the first
agent type (in dict insertion order) owning a workflow whose lower-cased name
occurs in the lower-cased user message. -/
def findAgentMention (msg : String) : List (String × List CachedWorkflow) → Option String
  | [] => none
  | (agent, ws) :: rest =>
    if ws.any (fun w => strContains msg (pyLower w.name)) then some agent
    else findAgentMention msg rest

/-- The direct-workflow-request check of `should_handoff`: only consulted when
the message contains one of the trigger words "workflow", "run", "execute". -/
def direct_workflow_match (workflows : List (String × List CachedWorkflow)) (msg : String) :
    Option String :=
  if strContains msg "workflow" || strContains msg "run" || strContains msg "execute" then
    findAgentMention msg workflows
  else
    none

/-- The static `intent_to_agent_mapping` dict. -/
def intent_to_agent_mapping : List (String × String) :=
  [ ("data_analysis", "data_analysis")
  , ("home_automation", "home_automation")
  , ("report_generation", "report_generation")
  , ("approval_request", "approval_workflow")
  , ("document_processing", "document_processing")
  , ("task_management", "task_management") ]

/-- `HandoffManager.should_handoff(intent_analysis, confidence_threshold)`:
below-threshold confidence bails out before anything else; otherwise the
workflow cache is refreshed, a literal workflow-name mention (behind the
trigger-word guard) wins, and otherwise the static intent→agent mapping is
consulted, kept only when that agent has a non-empty workflow list. -/
def should_handoff (st : HandoffManagerState) (now : Nat) (fetch : CatalogFetch)
    (intent_analysis : IntentAnalysis) (confidence_threshold : Rat) :
    HandoffManagerState × Option String :=
  if intent_analysis.confidence < confidence_threshold then
    (st, none)
  else
    let r := refresh_n8n_workflows st now fetch false
    let msg := pyLower intent_analysis.user_message
    let decision : Option String :=
      match direct_workflow_match r.workflows msg with
      | some agent => some agent
      | none =>
        match lookupAssoc intent_analysis.intent intent_to_agent_mapping with
        | some target =>
          match lookupAssoc target r.workflows with
          | some ws => if ws.isEmpty then none else some target
          | none => none
        | none => none
    (r.state, decision)

/-- `HandoffManager._trigger_gerald_workflow`: POST to Gerald's webhook; a 200
is a success whether or not the body parses (the `JSONDecodeError` branch only
changes the message); anything else (bad status, transport error, other
exception) is a failure — always returned, never raised. -/
def trigger_gerald_workflow (resp : HttpOutcome) : TriggerResult :=
  match resp with
  | HttpOutcome.response code _text json =>
    if code == 200 then
      match json with
      | some _ =>
        { success := true, message := "Gerald\x27s workflow triggered successfully"
          workflow_response := none, status_code := some code, executed := none }
      | none =>
        { success := true, message := "Gerald\x27s workflow triggered successfully (no JSON response)"
          workflow_response := none, status_code := some code, executed := none }
    else
      { success := false
        message := "Failed to trigger Gerald\x27s workflow. Status: " ++ toString code
        workflow_response := none, status_code := some code, executed := none }
  | HttpOutcome.connectionError =>
    { success := false, message := "Error triggering Gerald\x27s workflow: ConnectionError"
      workflow_response := none, status_code := none, executed := none }
  | HttpOutcome.raised m =>
    { success := false, message := "Error triggering Gerald\x27s workflow: " ++ m
      workflow_response := none, status_code := none, executed := none }

/-- `HandoffManager._trigger_home_automation_workflow`: POST to the chat
webhook; a 200 with a parsable body extracts `result.get("response", ...)`, a
200 with an unparsable body keeps the raw text, anything else is a failure
with `executed = False` — always returned, never raised. -/
def trigger_home_automation_workflow (resp : HttpOutcome) : TriggerResult :=
  match resp with
  | HttpOutcome.response code text json =>
    if code == 200 then
      match json with
      | some v =>
        { success := true, message := "Home Automation Advisor workflow executed successfully"
          workflow_response := some ((jGet v "response").getD (JValue.str "No response from workflow"))
          status_code := some code, executed := some true }
      | none =>
        { success := true, message := "Home Automation Advisor workflow executed successfully"
          workflow_response := some (JValue.str text)
          status_code := some code, executed := some true }
    else
      { success := false
        message := "Failed to execute Home Automation Advisor workflow. Status: " ++ toString code
        workflow_response := some (JValue.str ("Error: Workflow returned status " ++ toString code))
        status_code := some code, executed := some false }
  | HttpOutcome.connectionError =>
    { success := false, message := "Error executing Home Automation Advisor workflow: ConnectionError"
      workflow_response := some (JValue.str "Error: ConnectionError")
      status_code := none, executed := some false }
  | HttpOutcome.raised m =>
    { success := false, message := "Error executing Home Automation Advisor workflow: " ++ m
      workflow_response := some (JValue.str ("Error: " ++ m))
      status_code := none, executed := some false }

/-- Python `target_agent_type.replace('_', ' ').title()`. -/
def pyTitle (s : String) : String :=
  String.intercalate " "
    (((String.map (fun c => if c = '_' then ' ' else c) s).splitOn " ").map String.capitalize)

/-- The response dict `initiate_handoff` hands back to its caller. -/
structure InitiateResult where
  success : Bool
  error : Option String
  message : String
  handoff_id : Option String
  specialized_session_id : Option String
  available_workflows : List String
  handoff_type : Option String
  gerald_workflow_triggered : Option Bool
  gerald_workflow_message : Option String
  home_automation_workflow_triggered : Option Bool
  home_automation_workflow_message : Option String
  workflow_response : Option JValue
  executed : Option Bool

/-- `HandoffManager.initiate_handoff(session_id, user_message, intent_analysis,
target_agent_type, context)`.  The fresh `uuid4` and the clock are supplied by
the environment, as is the HTTP outcome of the auto-trigger POST (used only
when the target type auto-triggers).  A target with no cached workflows is
rejected; otherwise the record is stored in `active_handoffs` with status
`in_progress`, and for `data_analysis` / `home_automation` targets one default
invocation is attempted at once, its outcome written into the stored record's
trigger fields (the record's `status` is not touched by that write).  The
trigger helpers catch their own exceptions, so the `except` arms inside
`initiate_handoff` are unreachable. -/
def initiate_handoff (st : HandoffManagerState) (now : Nat) (fetch : CatalogFetch)
    (trig : HttpOutcome) (handoff_id : String) (session_id : String) (user_message : String)
    (intent_analysis : IntentAnalysis) (target_agent_type : String) :
    HandoffManagerState × InitiateResult :=
  let r := refresh_n8n_workflows st now fetch false
  let agent_workflows := (lookupAssoc target_agent_type r.workflows).getD []
  if agent_workflows.isEmpty then
    (r.state,
      { success := false
        error := some ("No workflows available for agent type: " ++ target_agent_type)
        message := "No workflows available for agent type: " ++ target_agent_type
        handoff_id := none, specialized_session_id := none, available_workflows := []
        handoff_type := none
        gerald_workflow_triggered := none, gerald_workflow_message := none
        home_automation_workflow_triggered := none, home_automation_workflow_message := none
        workflow_response := none, executed := none })
  else
    let specialized_session_id :=
      session_id ++ "_specialized_" ++ target_agent_type ++ "_" ++ handoff_id
    let handoff_data : HandoffData :=
      { handoff_id := handoff_id
        original_session_id := session_id
        specialized_session_id := specialized_session_id
        target_agent_type := target_agent_type
        user_message := user_message
        intent := intent_analysis.intent
        status := HandoffStatus.in_progress.value
        created_at := now
        handoff_type := "n8n_workflow"
        available_workflows := agent_workflows
        workflow_count := agent_workflows.length
        gerald_workflow_triggered := none, gerald_webhook_result := none
        home_automation_workflow_triggered := none, home_automation_webhook_result := none
        executing_workflow_id := none, workflow_result := none, error := none
        completed_at := none, final_result := none }
    let workflow_names := (agent_workflows.filter (fun w => w.active)).map (fun w => w.name)
    let agent_name := pyTitle target_agent_type ++ " Agent"
    let baseResponse : InitiateResult :=
      if workflow_names.isEmpty then
        { success := true, error := none
          message := "I\x27m transferring you to " ++ agent_name ++
            " who specializes in these workflows. Note: No active workflows are currently available."
          handoff_id := some handoff_id, specialized_session_id := some specialized_session_id
          available_workflows := [], handoff_type := some "specialized_agent"
          gerald_workflow_triggered := none, gerald_workflow_message := none
          home_automation_workflow_triggered := none, home_automation_workflow_message := none
          workflow_response := none, executed := none }
      else
        { success := true, error := none
          message := "I\x27m transferring you to " ++ agent_name ++ " who has " ++
            toString workflow_names.length ++ " active workflows available: " ++
            String.intercalate ", " workflow_names
          handoff_id := some handoff_id, specialized_session_id := some specialized_session_id
          available_workflows := workflow_names, handoff_type := some "n8n_workflow"
          gerald_workflow_triggered := none, gerald_workflow_message := none
          home_automation_workflow_triggered := none, home_automation_workflow_message := none
          workflow_response := none, executed := none }
    if target_agent_type == "data_analysis" then
      let g := trigger_gerald_workflow trig
      let handoff_data2 := { handoff_data with
        gerald_workflow_triggered := some g.success
        gerald_webhook_result := some g }
      let st2 := { r.state with
        active_handoffs := setAssoc handoff_id handoff_data2 r.state.active_handoffs }
      (st2, { baseResponse with
        gerald_workflow_triggered := some g.success
        gerald_workflow_message := some g.message })
    else if target_agent_type == "home_automation" then
      let h := trigger_home_automation_workflow trig
      let handoff_data2 := { handoff_data with
        home_automation_workflow_triggered := some h.success
        home_automation_webhook_result := some h }
      let st2 := { r.state with
        active_handoffs := setAssoc handoff_id handoff_data2 r.state.active_handoffs }
      (st2, { baseResponse with
        home_automation_workflow_triggered := some h.success
        home_automation_workflow_message := some h.message
        workflow_response := some ((h.workflow_response).getD (JValue.str "No response from workflow"))
        executed := some (h.executed.getD false) })
    else
      let st2 := { r.state with
        active_handoffs := setAssoc handoff_id handoff_data r.state.active_handoffs }
      (st2, baseResponse)

/-- The result dict of `execute_workflow_handoff`. -/
structure ExecHandoffResult where
  success : Bool
  workflow_id : Option String
  workflow_name : Option String
  result : Option JValue
  message : Option String
  error : Option String

/-- Python truthiness of the optional `workflow_id` argument
(`if not workflow_id:` treats both `None` and `""` as missing). -/
def widTruthy : Option String → Bool
  | some s => !(s == "")
  | none => false

/-- `HandoffManager.execute_workflow_handoff(handoff_id, workflow_id,
user_data)`.  The unknown-id check precedes the registry refresh; the
workflow-availability checks follow it (so their early error returns keep the
refresh's side effect).  Once a target workflow is found the record's status
is set to `workflow_executing`; a webhook POST answering 200 with a parsable
body completes the record in place (status `completed`, `workflow_result`,
`completed_at`) — the record stays in `active_handoffs` —, while a non-200
status, an unparsable 200 body, or a raised transport error trips the inner
`except`, which sets status `failed` and re-raises into the outer `except`'s
error dict.  Cached entries always carry a webhook path; were it missing, the
MCP fallback passes `trigger_webhook_workflow` an `http_method` keyword the
method does not accept, so that branch raises `TypeError` and also fails the
record. -/
def execute_workflow_handoff (st : HandoffManagerState) (now : Nat) (fetch : CatalogFetch)
    (webhookResp : HttpOutcome) (handoff_id : String) (workflow_id : Option String) :
    HandoffManagerState × ExecHandoffResult :=
  match lookupAssoc handoff_id st.active_handoffs with
  | none =>
    (st, { success := false, workflow_id := none, workflow_name := none, result := none
           message := none, error := some ("Handoff " ++ handoff_id ++ " not found") })
  | some hd =>
    let r := refresh_n8n_workflows st now fetch false
    let agent_workflows := (lookupAssoc hd.target_agent_type r.workflows).getD []
    if agent_workflows.isEmpty then
      (r.state,
        { success := false, workflow_id := none, workflow_name := none, result := none
          message := none
          error := some ("No workflows available for agent " ++ hd.target_agent_type) })
    else
      let chosen : Option (Option String) :=
        if widTruthy workflow_id then some workflow_id
        else
          match (agent_workflows.filter (fun w => w.active)).head? with
          | some w => some w.id
          | none => none
      match chosen with
      | none =>
        (r.state,
          { success := false, workflow_id := none, workflow_name := none, result := none
            message := none
            error := some ("No active workflows available for agent " ++ hd.target_agent_type) })
      | some wid =>
        match agent_workflows.find? (fun w => decide (w.id = wid)) with
        | none =>
          (r.state,
            { success := false, workflow_id := none, workflow_name := none, result := none
              message := none
              error := some ("Workflow " ++ pyOptionStr wid ++ " not found for agent " ++
                hd.target_agent_type) })
        | some target_workflow =>
          let hd1 := { hd with
            status := HandoffStatus.workflow_executing.value
            executing_workflow_id := wid }
          let fail : String → HandoffManagerState × ExecHandoffResult := fun msg =>
            let hd2 := { hd1 with status := HandoffStatus.failed.value, error := some msg }
            ({ r.state with active_handoffs := setAssoc handoff_id hd2 r.state.active_handoffs },
              { success := false, workflow_id := none, workflow_name := none, result := none
                message := none
                error := some ("Failed to execute workflow handoff: " ++ msg) })
          match target_workflow.webhook_path with
          | some _path =>
            match webhookResp with
            | HttpOutcome.response code _text json =>
              if code == 200 then
                match json with
                | some v =>
                  let hd2 := { hd1 with
                    status := HandoffStatus.completed.value
                    workflow_result := some v
                    completed_at := some now }
                  ({ r.state with
                      active_handoffs := setAssoc handoff_id hd2 r.state.active_handoffs },
                    { success := true, workflow_id := wid
                      workflow_name := some target_workflow.name, result := some v
                      message := some ("Workflow \x27" ++ target_workflow.name ++
                        "\x27 executed successfully")
                      error := none })
                | none => fail jsonDecodeErrorMsg
              else
                fail ("Workflow execution failed with status " ++ toString code)
            | HttpOutcome.connectionError => fail "ConnectionError"
            | HttpOutcome.raised m => fail m
          | none =>
            fail "trigger_webhook_workflow() got an unexpected keyword argument \x27http_method\x27"

/-- The result dict of `complete_handoff`. -/
structure CompleteResult where
  success : Bool
  error : Option String
  handoff_id : Option String
  original_session_id : Option String
  message : Option String
  result : Option JValue
  workflow_executed : Option Bool

/-- `HandoffManager.complete_handoff(handoff_id, result)`: unknown ids are a
NotFound-style error; otherwise the stored workflow result (when present)
replaces the caller's `result`, the record's status is set to `completed` —
whatever it was before, `failed` included — and the record is moved from
`active_handoffs` to `handoff_history`. -/
def complete_handoff (st : HandoffManagerState) (now : Nat) (handoff_id : String)
    (result : Option JValue) : HandoffManagerState × CompleteResult :=
  match lookupAssoc handoff_id st.active_handoffs with
  | none =>
    (st, { success := false, error := some ("Handoff " ++ handoff_id ++ " not found")
           handoff_id := none, original_session_id := none, message := none
           result := none, workflow_executed := none })
  | some hd =>
    let finalResult := match hd.workflow_result with
      | some wr => some wr
      | none => result
    let hd2 := { hd with
      status := HandoffStatus.completed.value
      completed_at := some now
      final_result := finalResult }
    ({ st with
        active_handoffs := removeAssoc handoff_id st.active_handoffs
        handoff_history := setAssoc handoff_id hd2 st.handoff_history },
      { success := true, error := none, handoff_id := some handoff_id
        original_session_id := some hd.original_session_id
        message := some "Handoff completed. Returning to coordinator agent."
        result := finalResult
        workflow_executed := some hd.workflow_result.isSome })

/-! ## `workflow_orchestration_engine.py` — WorkflowOrchestrationEngine -/

/-- `AgentType` enum. -/
inductive AgentType where
  | inception | glossary | business_concept | story
  | physical_metadata | schema_attribution | database_assistant
deriving DecidableEq

/-- The `.value` string of each `AgentType` member. -/
def AgentType.value : AgentType → String
  | inception => "inception"
  | glossary => "glossary"
  | business_concept => "business_concept"
  | story => "story"
  | physical_metadata => "physical_metadata"
  | schema_attribution => "schema_attribution"
  | database_assistant => "database_assistant"

/-- `WorkflowSequenceType` enum. -/
inductive WorkflowSequenceType where
  | metadata_discovery | data_cataloging | data_vault_generation
  | business_intelligence | full_bi_pipeline
deriving DecidableEq

/-- The `.value` string of each `WorkflowSequenceType` member. -/
def WorkflowSequenceType.value : WorkflowSequenceType → String
  | metadata_discovery => "metadata_discovery"
  | data_cataloging => "data_cataloging"
  | data_vault_generation => "data_vault_generation"
  | business_intelligence => "business_intelligence"
  | full_bi_pipeline => "full_bi_pipeline"

/-- The `self.workflow_sequences` dict built in `__init__`; it binds every
`WorkflowSequenceType` member, so the unknown-sequence early return of
`execute_workflow_sequence` is unreachable for enum inputs. -/
def workflow_sequences : WorkflowSequenceType → List AgentType
  | WorkflowSequenceType.metadata_discovery =>
    [AgentType.inception, AgentType.glossary, AgentType.business_concept]
  | WorkflowSequenceType.data_cataloging =>
    [AgentType.physical_metadata, AgentType.schema_attribution]
  | WorkflowSequenceType.data_vault_generation =>
    [AgentType.database_assistant]
  | WorkflowSequenceType.business_intelligence =>
    [AgentType.story]
  | WorkflowSequenceType.full_bi_pipeline =>
    [AgentType.inception, AgentType.glossary, AgentType.business_concept,
     AgentType.physical_metadata, AgentType.schema_attribution,
     AgentType.database_assistant, AgentType.story]

/-- The `self.workflow_registry` dict built in `__init__`: every `AgentType`
member is bound, so the missing-workflow-id early return of
`execute_workflow` is unreachable. -/
def workflow_registry : AgentType → String
  | AgentType.inception => "inception-agent-workflow-id"
  | AgentType.glossary => "glossary-agent-workflow-id"
  | AgentType.business_concept => "business-concept-agent-workflow-id"
  | AgentType.story => "story-agent-workflow-id"
  | AgentType.physical_metadata => "physical-metadata-agent-workflow-id"
  | AgentType.schema_attribution => "schema-attribution-agent-workflow-id"
  | AgentType.database_assistant => "database-assistant-agent-workflow-id"

/-- `WorkflowRequest` dataclass.  Its fields are `agent_type`, `payload`,
`session_id`, `context`, `priority` — note there is no `result` field. -/
structure WorkflowRequest where
  agent_type : AgentType
  payload : JValue
  session_id : String
  context : Option JValue
  priority : Nat

/-- Python attribute access `r.result` on a `WorkflowRequest`: the dataclass
declares no such field, so the lookup raises `AttributeError`. -/
def workflowRequestResult (_ : WorkflowRequest) : Except String JValue :=
  Except.error "\x27WorkflowRequest\x27 object has no attribute \x27result\x27"

/-- `WorkflowResponse` dataclass (execution time in wall-clock seconds). -/
structure WorkflowResponse where
  success : Bool
  result : JValue
  agent_type : AgentType
  execution_time : Nat
  error : Option String

/-- `SequenceRequest` dataclass. -/
structure SequenceRequest where
  sequence_type : WorkflowSequenceType
  payload : JValue
  session_id : String
  context : Option JValue
  parallel_execution : Bool

/-- `SequenceResponse` dataclass. -/
structure SequenceResponse where
  success : Bool
  results : List WorkflowResponse
  sequence_type : WorkflowSequenceType
  total_execution_time : Nat
  errors : Option (List String)

/-- `WorkflowOrchestrationEngine.execute_workflow(request)`: the DataHub
context gathering and the webhook POST are external (the POST outcome is the
`http` oracle, the measured wall-clock time the `elapsed` oracle); the n8n
result dict is normalized into a `WorkflowResponse` — `status == "success"`
yields a success carrying `n8n_result.get("result", {})`, anything else a
failure carrying `n8n_result.get("message", "Unknown n8n error")`.
`_get_datahub_context` catches its own exceptions and
`trigger_webhook_workflow` returns error dicts rather than raising, so the
enclosing `except` arm is unreachable. -/
def execute_workflow (http : AgentType → HttpOutcome) (elapsed : AgentType → Nat)
    (request : WorkflowRequest) : WorkflowResponse :=
  let n8n_result := trigger_webhook_workflow (http request.agent_type)
  if n8n_result.status == "success" then
    { success := true
      result := (n8n_result.result).getD (JValue.obj [])
      agent_type := request.agent_type
      execution_time := elapsed request.agent_type
      error := none }
  else
    { success := false
      result := JValue.obj []
      agent_type := request.agent_type
      execution_time := elapsed request.agent_type
      error := some ((n8n_result.message).getD "Unknown n8n error") }

/-- The context built for step `i` of a sequence (`request.context or {}`,
plus, from the second step on, `context["previous_results"] =
[r.result for r in workflow_requests[:i]]`).  The list comprehension reads the
`result` attribute of the *requests* accumulated so far — `WorkflowRequest`
has no such attribute, so for every `i > 0` this raises `AttributeError`. -/
def buildStepContext (request : SequenceRequest) (i : Nat) (built : List WorkflowRequest) :
    Except String JValue :=
  let context := request.context.getD (JValue.obj [])
  if i > 0 then
    match built.mapM workflowRequestResult with
    | Except.error e => Except.error e
    | Except.ok prevs => Except.ok (jSet context "previous_results" (JValue.arr prevs))
  else
    Except.ok context

/-- The request-preparation loop of `execute_workflow_sequence`, accumulating
`workflow_requests` in declared step order; the first raised
`AttributeError` propagates out. -/
def prepareWorkflowRequestsAux (request : SequenceRequest) :
    List AgentType → Nat → List WorkflowRequest → Except String (List WorkflowRequest)
  | [], _, acc => Except.ok acc
  | agent :: rest, i, acc =>
    match buildStepContext request i acc with
    | Except.error e => Except.error e
    | Except.ok ctx =>
      prepareWorkflowRequestsAux request rest (i + 1)
        (acc ++ [{ agent_type := agent, payload := request.payload
                   session_id := request.session_id, context := some ctx, priority := i + 1 }])

/-- `workflow_requests` as prepared by `execute_workflow_sequence` for the
declared steps of the requested sequence. -/
def prepare_workflow_requests (request : SequenceRequest) : Except String (List WorkflowRequest) :=
  prepareWorkflowRequestsAux request (workflow_sequences request.sequence_type) 0 []

/-- The error line recorded for a failing step:
`f"Workflow {result.agent_type.value} failed: {result.error}"`. -/
def stepErrorLine (r : WorkflowResponse) : String :=
  "Workflow " ++ r.agent_type.value ++ " failed: " ++ pyOptionStr r.error

/-- `WorkflowOrchestrationEngine.execute_workflow_sequence(request)`.
Request preparation runs before the parallel/sequential branch; when it raises
(any sequence of two or more steps, through `buildStepContext`) the enclosing
`except` returns a failed response with no results and the exception text as
the single error.  Otherwise each prepared request is executed —
`execute_workflow` is total, so the parallel branch's `gather` collects the
same responses the sequential loop does and its isinstance-Exception arm stays
empty — and the responses are aggregated: one error line per failing step in
step order, `success = (len(errors) == 0)`, and `errors if errors else None`.
`total_elapsed` is the externally measured end-to-end wall-clock time. -/
def execute_workflow_sequence (http : AgentType → HttpOutcome) (elapsed : AgentType → Nat)
    (total_elapsed : Nat) (request : SequenceRequest) : SequenceResponse :=
  match prepare_workflow_requests request with
  | Except.error e =>
    { success := false, results := [], sequence_type := request.sequence_type
      total_execution_time := total_elapsed, errors := some [e] }
  | Except.ok reqs =>
    let results := reqs.map (execute_workflow http elapsed)
    let errors := results.filterMap (fun r => if r.success then none else some (stepErrorLine r))
    { success := errors.isEmpty
      results := results
      sequence_type := request.sequence_type
      total_execution_time := total_elapsed
      errors := if errors.isEmpty then none else some errors }

/-! ## Association-list facts used by the invariant proofs -/

theorem lookupAssoc_setAssoc_self {α : Type} (k : String) (v : α) (l : List (String × α)) :
    lookupAssoc k (setAssoc k v l) = some v := by
  induction l with
  | nil => simp [setAssoc, lookupAssoc]
  | cons p rest ih =>
    obtain ⟨k2, v2⟩ := p
    by_cases h : k2 == k
    · simp [setAssoc, h, lookupAssoc]
    · simp [setAssoc, h, lookupAssoc, ih]

theorem mem_setAssoc {α : Type} (k : String) (v : α) (l : List (String × α)) (p : String × α)
    (hp : p ∈ setAssoc k v l) : p = (k, v) ∨ p ∈ l := by
  induction l with
  | nil => simpa [setAssoc] using hp
  | cons q rest ih =>
    obtain ⟨k2, v2⟩ := q
    by_cases h : k2 == k
    · simp only [setAssoc, h, if_pos] at hp
      rcases List.mem_cons.mp hp with h1 | h1
      · exact Or.inl h1
      · exact Or.inr (List.mem_cons_of_mem _ h1)
    · simp only [setAssoc, h, if_neg, Bool.false_eq_true, not_false_iff] at hp
      rcases List.mem_cons.mp hp with h1 | h1
      · exact Or.inr (h1 ▸ List.mem_cons_self _ _)
      · rcases ih h1 with h2 | h2
        · exact Or.inl h2
        · exact Or.inr (List.mem_cons_of_mem _ h2)

theorem mem_removeAssoc {α : Type} (k : String) (l : List (String × α)) (p : String × α)
    (hp : p ∈ removeAssoc k l) : p ∈ l :=
  List.mem_of_mem_filter hp

theorem lookupAssoc_removeAssoc_self {α : Type} (k : String) (l : List (String × α)) :
    lookupAssoc k (removeAssoc k l) = none := by
  induction l with
  | nil => simp [removeAssoc, lookupAssoc]
  | cons q rest ih =>
    obtain ⟨k2, v2⟩ := q
    by_cases h : k2 == k
    · simpa [removeAssoc, h, lookupAssoc] using ih
    · simpa [removeAssoc, h, lookupAssoc] using ih

theorem lookupAssoc_mem {α : Type} (k : String) (l : List (String × α)) (v : α)
    (h : lookupAssoc k l = some v) : (k, v) ∈ l := by
  induction l with
  | nil => simp [lookupAssoc] at h
  | cons q rest ih =>
    obtain ⟨k2, v2⟩ := q
    by_cases h2 : k2 == k
    · simp only [lookupAssoc, h2, if_pos] at h
      obtain rfl : v2 = v := by injection h
      obtain rfl : k2 = k := by simpa using h2
      exact List.mem_cons_self _ _
    · simp only [lookupAssoc, h2, if_neg, Bool.false_eq_true, not_false_iff] at h
      exact List.mem_cons_of_mem _ (ih h)

/-! ## Concrete fixtures used by the per-claim theorems -/

/-- An HTTP oracle whose every webhook POST answers 200 with a parsable body. -/
def httpAllOk : AgentType → HttpOutcome :=
  fun _ => HttpOutcome.response 200 "ok-body" (some (JValue.obj [("answer", JValue.num 1)]))

/-- A sequential run request for the two-step `data_cataloging` sequence. -/
def seqReqDataCataloging : SequenceRequest :=
  { sequence_type := WorkflowSequenceType.data_cataloging
    payload := JValue.obj [("dataset_urn", JValue.str "urn:li:dataset:d1")]
    session_id := "session-1", context := none, parallel_execution := false }

/-! ## C1 -/

/-- C1: the claim says a sequential run of a sequence with N declared steps
returns exactly N step results, one per declared step in order, with prior
step payloads fed into later contexts.  The code contradicts it: request
preparation evaluates `r.result` over the accumulated `WorkflowRequest`
objects, which have no `result` attribute, so for every sequence of two or
more steps an `AttributeError` aborts the run before any step executes.  The
two-step `data_cataloging` sequence under an all-successful webhook oracle
returns zero results and the attribute error as its only error. -/
theorem data_cataloging_sequential_returns_no_step_results :
    (workflow_sequences WorkflowSequenceType.data_cataloging).length = 2 ∧
    (execute_workflow_sequence httpAllOk (fun _ => 1) 2 seqReqDataCataloging).results.length = 0 ∧
    (execute_workflow_sequence httpAllOk (fun _ => 1) 2 seqReqDataCataloging).errors =
      some ["\x27WorkflowRequest\x27 object has no attribute \x27result\x27"] :=
  ⟨rfl, rfl, rfl⟩

/-! ## C3 -/

/-- C3: the claim says `SequenceResult.success` is true iff every `StepResult`
in its results list has `success = true`.  The code contradicts it on every
sequence of two or more steps: the `AttributeError` raised while preparing
the step requests yields a response whose `results` list is empty — all its
members vacuously successful — while `success` is `false` (the errors list
holds the exception text). -/
theorem sequence_success_differs_from_all_results_successful :
    (execute_workflow_sequence httpAllOk (fun _ => 1) 2 seqReqDataCataloging).success = false ∧
    ((execute_workflow_sequence httpAllOk (fun _ => 1) 2 seqReqDataCataloging).results.all
      (fun r => r.success)) = true :=
  ⟨rfl, rfl⟩

/-- A successful catalog fetch carrying two entries, both of which the keyword
rules would classify (the first as document-processing, the second as
task-management). -/
def catalogTwoEntries : CatalogFetch :=
  CatalogFetch.response 200 "catalog-json-body" (some
    [ { id := some "wf-1", name := some "Document Extractor"
        description := some "extracts documents", active := some true }
    , { id := some "wf-2", name := some "Task Organizer"
        description := some "organizes tasks", active := some true } ])

/-- A manager whose cache was refreshed at time 0 and holds one entry. -/
def staleState : HandoffManagerState :=
  { active_handoffs := [], handoff_history := []
    n8n_workflows_cache :=
      [("task_management",
        [{ id := some "old-1", name := "Old Task Tool", active := true
           description := "cached entry"
           webhook_path := some "https://n8n.casamccartney.link/webhook/old-1" }])]
    last_workflow_refresh := some 0 }

/-- An access-denied catalog fetch (no catalog entries in the response). -/
def fetch403 : CatalogFetch :=
  CatalogFetch.response 403 "Forbidden" none

/-! ## C4 -/

/-- C4: the claim says a registry refresh classifies every fetched catalog
entry, skipping none.  The code contradicts it: the classification block is
dedented out of the `for` loop, so it runs once on the loop's leftover
variables and only the final entry is classified.  On a two-entry catalog
whose first entry ("Document Extractor") the keyword rules would map to
document-processing, the rebuilt index contains only the second entry. -/
theorem refresh_classifies_only_last_catalog_entry :
    map_workflow_to_agent (pyLower "Document Extractor") = some "document_processing" ∧
    (refresh_n8n_workflows initialState 50 catalogTwoEntries false).workflows =
      [("task_management",
        [{ id := some "wf-2", name := "Task Organizer", active := true
           description := "organizes tasks"
           webhook_path := some "https://n8n.casamccartney.link/webhook/wf-2" }])] :=
  ⟨rfl, rfl⟩

/-! ## C5 -/

/-- C5: the claim says a refresh with `forceRefresh = false` fetches the
catalog whenever the prior refresh completed 5 minutes or more earlier.  The
code contradicts it: the TTL test reads `.seconds` of the timedelta — the
seconds *component*, i.e. elapsed time modulo one day — so a refresh one day
and one minute after the previous one (elapsed 86460 s, component 60 s) is
treated as fresh: no fetch is issued and the stale cache is returned
unchanged. -/
theorem refresh_skips_fetch_one_day_after_prior_refresh :
    300 ≤ 86460 - 0 ∧
    (refresh_n8n_workflows staleState 86460 catalogTwoEntries false).didFetch = false ∧
    (refresh_n8n_workflows staleState 86460 catalogTwoEntries false).workflows =
      staleState.n8n_workflows_cache ∧
    (refresh_n8n_workflows staleState 86460 catalogTwoEntries false).state = staleState :=
  ⟨by norm_num, rfl, rfl, rfl⟩

/-! ## C9 -/

/-- C9 counterexample: the claim says a failing catalog fetch leaves the
caller with the previously cached mapping (here empty) or an empty list, and
never with fabricated entries.  On an access-denied (403) response carrying
no catalog entries, the client substitutes its hard-coded sample catalog and
the refresh indexes the fabricated entry `sample-3`. -/
theorem refresh_fabricates_sample_entries_on_403 :
    initialState.n8n_workflows_cache = [] ∧
    (refresh_n8n_workflows initialState 0 fetch403 false).workflows =
      [("data_analysis",
        [{ id := some "sample-3", name := "Report Generation Workflow", active := false
           description := "Generates and distributes business reports automatically"
           webhook_path := some "https://n8n.casamccartney.link/webhook/sample-3" }])] :=
  ⟨rfl, rfl⟩

/-- C9 (amended): a failing catalog fetch never propagates an exception out of
the refresh — when the fetch result is an error dict the stale cached mapping
is returned with the state unchanged, and transport errors, raised exceptions
and non-success statuses other than 403 all produce error dicts — but
access-denied (403 or Cloudflare-interstitial) responses and unparsable 200
bodies make the client fabricate its fixed three-entry sample catalog, which
the refresh then treats as a successful fetch. -/
theorem refresh_error_paths_serve_cache_and_403_serves_samples :
    (∀ (st : HandoffManagerState) (now : Nat) (fetch : CatalogFetch) (force : Bool),
      (list_workflows fetch).status = "error" →
        (refresh_n8n_workflows st now fetch force).state = st ∧
        (refresh_n8n_workflows st now fetch force).workflows = st.n8n_workflows_cache) ∧
    ((list_workflows CatalogFetch.connectionError).status = "error") ∧
    (∀ m, (list_workflows (CatalogFetch.raised m)).status = "error") ∧
    (∀ (code : Nat) (text : String) (d : Option (List RawWorkflow)),
      code ≠ 200 → code ≠ 403 → strContains text "Cloudflare Access" = false →
        (list_workflows (CatalogFetch.response code text d)).status = "error") ∧
    (∀ (text : String) (d : Option (List RawWorkflow)),
      (list_workflows (CatalogFetch.response 403 text d)).workflows = sampleWorkflows) ∧
    (∀ (text : String), cloudflareBlocked text = false →
      (list_workflows (CatalogFetch.response 200 text none)).workflows = sampleWorkflows) := by
  refine ⟨?_, rfl, fun m => rfl, ?_, ?_, ?_⟩
  · intro st now fetch force h
    have hb : ((list_workflows fetch).status == "success") = false := by
      rw [h]
      rfl
    have hf : refresh_fetch st.n8n_workflows_cache st.last_workflow_refresh now fetch =
        (st.n8n_workflows_cache, st.last_workflow_refresh, true) := by
      simp [refresh_fetch, hb]
    have hs : (refresh_core st.n8n_workflows_cache st.last_workflow_refresh now fetch force).1 =
          st.n8n_workflows_cache ∧
        (refresh_core st.n8n_workflows_cache st.last_workflow_refresh now fetch force).2.1 =
          st.last_workflow_refresh := by
      by_cases hfr : cacheIsFresh st.last_workflow_refresh now force = true
      · unfold refresh_core
        rw [if_pos hfr]
        exact ⟨rfl, rfl⟩
      · unfold refresh_core
        rw [if_neg hfr, hf]
        exact ⟨rfl, rfl⟩
    refine ⟨?_, hs.1⟩
    show ({ st with
      n8n_workflows_cache :=
        (refresh_core st.n8n_workflows_cache st.last_workflow_refresh now fetch force).1
      last_workflow_refresh :=
        (refresh_core st.n8n_workflows_cache st.last_workflow_refresh now fetch force).2.1 } :
        HandoffManagerState) = st
    rw [hs.1, hs.2]
  · intro code text d h200 h403 hcf
    simp [list_workflows, h200, h403, hcf]
  · intro text d
    simp [list_workflows]
  · intro text h
    simp [list_workflows, h]

/-- Witness for the amended C9 theorem: a transport failure on an empty cache
returns the empty cached mapping. -/
theorem refresh_error_paths_witness :
    (refresh_n8n_workflows initialState 7 CatalogFetch.connectionError false).workflows = [] :=
  (refresh_error_paths_serve_cache_and_403_serves_samples.1 initialState 7
    CatalogFetch.connectionError false rfl).2

/-! ## C7 -/

/-- C7 counterexample: the claim says a success status code whose body cannot
be parsed as JSON still yields `success = true` with the raw body as the
payload.  `trigger_webhook_workflow` contradicts it: on a 200 response with
the non-empty non-JSON body "OK plain text" the `response.json()` call raises
and the blanket `except` returns an error dict with no payload. -/
theorem unparsable_success_body_yields_error :
    (trigger_webhook_workflow (HttpOutcome.response 200 "OK plain text" none)).status = "error" ∧
    (trigger_webhook_workflow (HttpOutcome.response 200 "OK plain text" none)).result = none :=
  ⟨rfl, rfl⟩

/-- C7 (amended): any non-success status code or transport error yields an
error result with a human-readable message; a 200 whose body parses yields a
success carrying the parsed body; a 200 with an *empty* body yields a success
carrying the stock message dict; but a 200 with a non-empty body that fails
to parse yields an error carrying the JSON-decode message, not a success with
the raw body. -/
theorem webhook_normalization_contract :
    (∀ (code : Nat) (text : String) (json : Option JValue), code ≠ 200 →
      (trigger_webhook_workflow (HttpOutcome.response code text json)).status = "error" ∧
      (trigger_webhook_workflow (HttpOutcome.response code text json)).message =
        some ("Failed to trigger workflow: " ++ toString code)) ∧
    ((trigger_webhook_workflow HttpOutcome.connectionError).status = "error") ∧
    (∀ m, (trigger_webhook_workflow (HttpOutcome.raised m)).status = "error" ∧
      (trigger_webhook_workflow (HttpOutcome.raised m)).message = some m) ∧
    (∀ (text : String) (v : JValue), text ≠ "" →
      (trigger_webhook_workflow (HttpOutcome.response 200 text (some v))).status = "success" ∧
      (trigger_webhook_workflow (HttpOutcome.response 200 text (some v))).result = some v) ∧
    (∀ (json : Option JValue),
      (trigger_webhook_workflow (HttpOutcome.response 200 "" json)).status = "success") ∧
    (∀ (text : String), text ≠ "" →
      (trigger_webhook_workflow (HttpOutcome.response 200 text none)).status = "error" ∧
      (trigger_webhook_workflow (HttpOutcome.response 200 text none)).message =
        some jsonDecodeErrorMsg) := by
  refine ⟨?_, rfl, fun m => ⟨rfl, rfl⟩, ?_, fun json => rfl, ?_⟩
  · intro code text json h
    constructor <;> simp [trigger_webhook_workflow, h]
  · intro text v h
    constructor <;> simp [trigger_webhook_workflow, h]
  · intro text h
    constructor <;> simp [trigger_webhook_workflow, h]

/-- Witness for the amended C7 theorem: a 404 yields an error result with the
status code in its message. -/
theorem webhook_normalization_witness :
    (trigger_webhook_workflow (HttpOutcome.response 404 "not found" none)).message =
      some "Failed to trigger workflow: 404" :=
  (webhook_normalization_contract.1 404 "not found" none (by decide)).2

/-- A successful catalog fetch whose single entry classifies (via "gerald" /
"handoff") to the auto-triggering `data_analysis` capability. -/
def fetchGerald : CatalogFetch :=
  CatalogFetch.response 200 "catalog-json-body" (some
    [ { id := some "g1", name := some "Gerald Handoff Chat"
        description := some "test workflow", active := some true } ])

/-- An intent signal confidently requesting data analysis. -/
def iaDataAnalysis : IntentAnalysis :=
  { confidence := 9/10, intent := "data_analysis", user_message := "please analyze my data" }

/-- A successful catalog fetch whose single entry classifies (via
"homeautomation") to the auto-triggering `home_automation` capability. -/
def fetchHomeAutomation : CatalogFetch :=
  CatalogFetch.response 200 "catalog-json-body" (some
    [ { id := some "ha1", name := some "HomeAutomation Advisor"
        description := some "advises on home automation", active := some true } ])

/-- An intent signal confidently requesting home automation. -/
def iaHomeAutomation : IntentAnalysis :=
  { confidence := 9/10, intent := "home_automation", user_message := "dim the lights" }

/-! ## C6 -/

/-- C6 counterexample: the claim says an `initiate_handoff` call for an
auto-triggering capability type returns with the record's status already
`completed` or `failed`.  The code contradicts it: the auto-trigger outcome is
written into the record's `gerald_workflow_triggered` field, but the status is
never updated, so after a `data_analysis` initiation whose trigger POST
succeeded the stored record's status is still `in_progress`. -/
theorem auto_trigger_leaves_record_in_progress :
    ((lookupAssoc "h-1" (initiate_handoff initialState 10 fetchGerald
        (HttpOutcome.response 200 "resp-body" (some (JValue.obj []))) "h-1" "sess-1"
        "please analyze my data" iaDataAnalysis "data_analysis").1.active_handoffs).map
      (fun d => d.status) = some "in_progress") ∧
    ((initiate_handoff initialState 10 fetchGerald
        (HttpOutcome.response 200 "resp-body" (some (JValue.obj []))) "h-1" "sess-1"
        "please analyze my data" iaDataAnalysis "data_analysis").2.gerald_workflow_triggered =
      some true) ∧
    ¬ (((lookupAssoc "h-1" (initiate_handoff initialState 10 fetchGerald
        (HttpOutcome.response 200 "resp-body" (some (JValue.obj []))) "h-1" "sess-1"
        "please analyze my data" iaDataAnalysis "data_analysis").1.active_handoffs).map
      (fun d => d.status) = some "completed") ∨
      ((lookupAssoc "h-1" (initiate_handoff initialState 10 fetchGerald
        (HttpOutcome.response 200 "resp-body" (some (JValue.obj []))) "h-1" "sess-1"
        "please analyze my data" iaDataAnalysis "data_analysis").1.active_handoffs).map
      (fun d => d.status) = some "failed")) :=
  ⟨rfl, rfl, by decide⟩

/-- C6 (amended): initiating a handoff to either auto-triggering capability
type — `data_analysis` or `home_automation` — immediately attempts one default
invocation and records its outcome into the same record's trigger fields (and
into the response), but the record's status is `in_progress` — not `completed`
or `failed` — when the call returns. -/
theorem auto_trigger_records_outcome_status_stays_in_progress :
    (∀ (st : HandoffManagerState) (now : Nat) (fetch : CatalogFetch) (trig : HttpOutcome)
      (hid sid msg : String) (ia : IntentAnalysis),
      ((lookupAssoc "data_analysis"
        (refresh_n8n_workflows st now fetch false).workflows).getD []).isEmpty = false →
      ((lookupAssoc hid
          (initiate_handoff st now fetch trig hid sid msg ia
            "data_analysis").1.active_handoffs).map
        (fun d => d.status) = some "in_progress") ∧
      ((lookupAssoc hid
          (initiate_handoff st now fetch trig hid sid msg ia
            "data_analysis").1.active_handoffs).map
        (fun d => d.gerald_workflow_triggered) =
        some (some (trigger_gerald_workflow trig).success)) ∧
      (initiate_handoff st now fetch trig hid sid msg ia
        "data_analysis").2.gerald_workflow_triggered =
        some (trigger_gerald_workflow trig).success) ∧
    (∀ (st : HandoffManagerState) (now : Nat) (fetch : CatalogFetch) (trig : HttpOutcome)
      (hid sid msg : String) (ia : IntentAnalysis),
      ((lookupAssoc "home_automation"
        (refresh_n8n_workflows st now fetch false).workflows).getD []).isEmpty = false →
      ((lookupAssoc hid
          (initiate_handoff st now fetch trig hid sid msg ia
            "home_automation").1.active_handoffs).map
        (fun d => d.status) = some "in_progress") ∧
      ((lookupAssoc hid
          (initiate_handoff st now fetch trig hid sid msg ia
            "home_automation").1.active_handoffs).map
        (fun d => d.home_automation_workflow_triggered) =
        some (some (trigger_home_automation_workflow trig).success)) ∧
      (initiate_handoff st now fetch trig hid sid msg ia
        "home_automation").2.home_automation_workflow_triggered =
        some (trigger_home_automation_workflow trig).success) := by
  constructor
  · intro st now fetch trig hid sid msg ia h
    refine ⟨?_, ?_, ?_⟩ <;>
      simp [initiate_handoff, h, lookupAssoc_setAssoc_self, HandoffStatus.value]
  · intro st now fetch trig hid sid msg ia h
    refine ⟨?_, ?_, ?_⟩ <;>
      simp [initiate_handoff, h, lookupAssoc_setAssoc_self, HandoffStatus.value]

/-- Witness for the amended C6 theorem, exercising both halves: a failing
trigger POST during a `data_analysis` initiation is recorded as
`gerald_workflow_triggered = false`, and a successful one during a
`home_automation` initiation as `home_automation_workflow_triggered = true`,
with both records left at status `in_progress`. -/
theorem auto_trigger_witness :
    ((initiate_handoff initialState 10 fetchGerald (HttpOutcome.response 500 "boom" none)
      "h-2" "sess-2" "analyze" iaDataAnalysis "data_analysis").2.gerald_workflow_triggered =
      some false) ∧
    ((lookupAssoc "h-3" (initiate_handoff initialState 10 fetchHomeAutomation
        (HttpOutcome.response 200 "rb" (some (JValue.obj [("response", JValue.str "done")])))
        "h-3" "sess-3" "dim the lights" iaHomeAutomation
        "home_automation").1.active_handoffs).map
      (fun d => d.status) = some "in_progress") ∧
    ((initiate_handoff initialState 10 fetchHomeAutomation
        (HttpOutcome.response 200 "rb" (some (JValue.obj [("response", JValue.str "done")])))
        "h-3" "sess-3" "dim the lights" iaHomeAutomation
        "home_automation").2.home_automation_workflow_triggered = some true) := by
  have hda := auto_trigger_records_outcome_status_stays_in_progress.1 initialState 10 fetchGerald
    (HttpOutcome.response 500 "boom" none) "h-2" "sess-2" "analyze" iaDataAnalysis rfl
  have hha := auto_trigger_records_outcome_status_stays_in_progress.2 initialState 10
    fetchHomeAutomation
    (HttpOutcome.response 200 "rb" (some (JValue.obj [("response", JValue.str "done")])))
    "h-3" "sess-3" "dim the lights" iaHomeAutomation rfl
  refine ⟨by simpa using hda.2.2, hha.1, by simpa using hha.2.2⟩

/-- The manager after initiating a `data_analysis` handoff "h-1". -/
def stAfterInitiate : HandoffManagerState :=
  (initiate_handoff initialState 10 fetchGerald
    (HttpOutcome.response 200 "rb" (some (JValue.obj []))) "h-1" "sess-1"
    "check my data" iaDataAnalysis "data_analysis").1

/-- The manager after the workflow execution for "h-1" failed (webhook
answered 500): the record's status was set to `failed`. -/
def stAfterFailedExec : HandoffManagerState :=
  (execute_workflow_handoff stAfterInitiate 20 fetchGerald
    (HttpOutcome.response 500 "boom" none) "h-1" none).1

/-! ## C2 -/

/-- C2 counterexample: the claim says a record whose status became `failed` is
moved to the history collection, is read-only, and can never transition to
`completed`.  The code contradicts it: after `execute_workflow_handoff` fails,
the record sits in the *active* collection with status `failed` (history does
not hold it), and a subsequent `complete_handoff` succeeds, rewriting the
status to `completed` and only then relocating the record. -/
theorem failed_record_stays_active_and_later_completes :
    ((lookupAssoc "h-1" stAfterFailedExec.active_handoffs).map
      (fun d => d.status) = some "failed") ∧
    (lookupAssoc "h-1" stAfterFailedExec.handoff_history = none) ∧
    ((complete_handoff stAfterFailedExec 30 "h-1" none).2.success = true) ∧
    ((lookupAssoc "h-1" (complete_handoff stAfterFailedExec 30 "h-1" none).1.handoff_history).map
      (fun d => d.status) = some "completed") ∧
    (lookupAssoc "h-1" (complete_handoff stAfterFailedExec 30 "h-1" none).1.active_handoffs =
      none) :=
  ⟨rfl, rfl, rfl, rfl, rfl⟩

/-- C2 (amended): only `complete_handoff` moves a record into the history
collection, and it always does so with status `completed` (removing the id
from the active collection); the `completed`/`failed` statuses written by
`execute_workflow_handoff` leave the record in the active collection — where
a later `complete_handoff` may still transition it, even from `failed`, to
`completed` — and neither `execute_workflow_handoff` nor `initiate_handoff`
ever touches the history collection. -/
theorem terminal_records_move_to_history_only_via_complete :
    (∀ (st : HandoffManagerState) (now : Nat) (hid : String) (res : Option JValue)
      (hd : HandoffData), lookupAssoc hid st.active_handoffs = some hd →
        ((lookupAssoc hid (complete_handoff st now hid res).1.handoff_history).map
          (fun d => d.status) = some "completed") ∧
        lookupAssoc hid (complete_handoff st now hid res).1.active_handoffs = none) ∧
    (∀ (st : HandoffManagerState) (now : Nat) (fetch : CatalogFetch) (resp : HttpOutcome)
      (hid : String) (wid : Option String),
        (execute_workflow_handoff st now fetch resp hid wid).1.handoff_history =
          st.handoff_history) ∧
    (∀ (st : HandoffManagerState) (now : Nat) (fetch : CatalogFetch) (trig : HttpOutcome)
      (hid sid msg : String) (ia : IntentAnalysis) (tgt : String),
        (initiate_handoff st now fetch trig hid sid msg ia tgt).1.handoff_history =
          st.handoff_history) := by
  refine ⟨?_, ?_, ?_⟩
  · intro st now hid res hd h
    constructor <;>
      simp [complete_handoff, h, lookupAssoc_setAssoc_self, lookupAssoc_removeAssoc_self,
        HandoffStatus.value]
  · intro st now fetch resp hid wid
    cases h : lookupAssoc hid st.active_handoffs with
    | none => simp [execute_workflow_handoff, h]
    | some hd =>
      simp only [execute_workflow_handoff, h]
      repeat' split
      all_goals rfl
  · intro st now fetch trig hid sid msg ia tgt
    simp only [initiate_handoff]
    repeat' split
    all_goals rfl

/-- Witness for the amended C2 theorem: completing the failed handoff "h-1"
removes it from the active collection. -/
theorem terminal_records_witness :
    lookupAssoc "h-1" (complete_handoff stAfterFailedExec 30 "h-1" none).1.active_handoffs =
      none :=
  (terminal_records_move_to_history_only_via_complete.1 stAfterFailedExec 30 "h-1" none _
    rfl).2

/-! ## C8 -/

theorem findAgentMention_nonempty (msg : String) (l : List (String × List CachedWorkflow))
    (a : String) (h : findAgentMention msg l = some a) : ∃ ws, (a, ws) ∈ l ∧ ws ≠ [] := by
  induction l with
  | nil => simp [findAgentMention] at h
  | cons p rest ih =>
    obtain ⟨agent, ws⟩ := p
    by_cases hm : ws.any (fun w => strContains msg (pyLower w.name)) = true
    · simp only [findAgentMention, hm, if_pos] at h
      obtain rfl : agent = a := by injection h
      refine ⟨ws, List.mem_cons_self _ _, ?_⟩
      rintro rfl
      simp [List.any] at hm
    · simp only [findAgentMention, hm, Bool.false_eq_true, if_neg, not_false_iff] at h
      obtain ⟨ws2, hmem, hne⟩ := ih h
      exact ⟨ws2, List.mem_cons_of_mem _ hmem, hne⟩

/-- C8: `should_handoff` returns none whenever the signal's confidence is
below the threshold; at or above the threshold, a literal workflow-name
mention in the (lower-cased) user text wins, any other decision comes from
the static intent→capability mapping, and every returned capability type has
a non-empty workflow list in the freshly refreshed registry mapping. -/
theorem should_handoff_contract (st : HandoffManagerState) (now : Nat) (fetch : CatalogFetch)
    (ia : IntentAnalysis) (thr : Rat) :
    (ia.confidence < thr → (should_handoff st now fetch ia thr).2 = none) ∧
    (¬ ia.confidence < thr → ∀ a,
      direct_workflow_match (refresh_n8n_workflows st now fetch false).workflows
        (pyLower ia.user_message) = some a →
      (should_handoff st now fetch ia thr).2 = some a) ∧
    (∀ a, (should_handoff st now fetch ia thr).2 = some a →
      direct_workflow_match (refresh_n8n_workflows st now fetch false).workflows
        (pyLower ia.user_message) = some a ∨
      lookupAssoc ia.intent intent_to_agent_mapping = some a) ∧
    (∀ a, (should_handoff st now fetch ia thr).2 = some a →
      ∃ ws, (a, ws) ∈ (refresh_n8n_workflows st now fetch false).workflows ∧ ws ≠ []) := by
  refine ⟨?_, ?_, ?_, ?_⟩
  · intro h
    simp [should_handoff, h]
  · intro hno a hdm
    simp [should_handoff, hno, hdm]
  · intro a hres
    by_cases h : ia.confidence < thr
    · simp [should_handoff, h] at hres
    · simp only [should_handoff, if_neg h] at hres
      rcases hd : direct_workflow_match (refresh_n8n_workflows st now fetch false).workflows
          (pyLower ia.user_message) with _ | b
      · simp only [hd] at hres
        rcases hm : lookupAssoc ia.intent intent_to_agent_mapping with _ | t
        · simp [hm] at hres
        · simp only [hm] at hres
          rcases hw : lookupAssoc t (refresh_n8n_workflows st now fetch false).workflows
              with _ | ws
          · simp [hw] at hres
          · by_cases hemp : ws.isEmpty
            · simp [hw, hemp] at hres
            · simp only [hw, hemp, Bool.false_eq_true, if_neg, not_false_iff] at hres
              exact Or.inr hres
      · simp only [hd] at hres
        exact Or.inl hres
  · intro a hres
    by_cases h : ia.confidence < thr
    · simp [should_handoff, h] at hres
    · simp only [should_handoff, if_neg h] at hres
      rcases hd : direct_workflow_match (refresh_n8n_workflows st now fetch false).workflows
          (pyLower ia.user_message) with _ | b
      · simp only [hd] at hres
        rcases hm : lookupAssoc ia.intent intent_to_agent_mapping with _ | t
        · simp [hm] at hres
        · simp only [hm] at hres
          rcases hw : lookupAssoc t (refresh_n8n_workflows st now fetch false).workflows
              with _ | ws
          · simp [hw] at hres
          · by_cases hemp : ws.isEmpty
            · simp [hw, hemp] at hres
            · simp only [hw, hemp, Bool.false_eq_true, if_neg, not_false_iff] at hres
              have hta : t = a := by injection hres
              rw [hta] at hw
              refine ⟨ws, lookupAssoc_mem _ _ _ hw, ?_⟩
              rintro rfl
              simp [List.isEmpty] at hemp
      · simp only [hd] at hres
        have hba : b = a := by injection hres
        rw [hba] at hd
        have hfa : findAgentMention (pyLower ia.user_message)
            (refresh_n8n_workflows st now fetch false).workflows = some a := by
          by_cases hg : (strContains (pyLower ia.user_message) "workflow" ||
              strContains (pyLower ia.user_message) "run" ||
              strContains (pyLower ia.user_message) "execute") = true
          · simpa [direct_workflow_match, hg] using hd
          · simp [direct_workflow_match, hg] at hd
        exact findAgentMention_nonempty _ _ _ hfa

/-- Witness for the C8 contract: a below-threshold intent signal produces no
handoff. -/
theorem should_handoff_witness :
    (should_handoff initialState 0 CatalogFetch.connectionError
      { confidence := 1/2, intent := "general_inquiry", user_message := "hello" }
      (7/10)).2 = none :=
  (should_handoff_contract initialState 0 CatalogFetch.connectionError
    { confidence := 1/2, intent := "general_inquiry", user_message := "hello" }
    (7/10)).1 (by norm_num)

/-! ## C10 -/

/-- The four statuses the claim allows over a record's lifetime. -/
def allowedStatus (s : String) : Prop :=
  s = "in_progress" ∨ s = "workflow_executing" ∨ s = "completed" ∨ s = "failed"

/-- Every record held by the manager — active or historical — carries one of
the four allowed statuses (in particular, never `cancelled` or `pending`). -/
def statusInvariant (st : HandoffManagerState) : Prop :=
  (∀ p ∈ st.active_handoffs, allowedStatus p.2.status) ∧
  (∀ p ∈ st.handoff_history, allowedStatus p.2.status)

/-- States reachable from a fresh `HandoffManager` by any interleaving of its
operations, under arbitrary clocks, catalog fetches, HTTP outcomes and
arguments (`get_handoff_status`, `list_active_handoffs` and the other readers
do not write state). -/
inductive Reachable : HandoffManagerState → Prop where
  | init : Reachable initialState
  | refresh (st : HandoffManagerState) (now : Nat) (fetch : CatalogFetch) (force : Bool) :
      Reachable st → Reachable (refresh_n8n_workflows st now fetch force).state
  | decide_handoff (st : HandoffManagerState) (now : Nat) (fetch : CatalogFetch)
      (ia : IntentAnalysis) (thr : Rat) :
      Reachable st → Reachable (should_handoff st now fetch ia thr).1
  | initiate (st : HandoffManagerState) (now : Nat) (fetch : CatalogFetch) (trig : HttpOutcome)
      (hid sid msg : String) (ia : IntentAnalysis) (tgt : String) :
      Reachable st → Reachable (initiate_handoff st now fetch trig hid sid msg ia tgt).1
  | exec (st : HandoffManagerState) (now : Nat) (fetch : CatalogFetch) (resp : HttpOutcome)
      (hid : String) (wid : Option String) :
      Reachable st → Reachable (execute_workflow_handoff st now fetch resp hid wid).1
  | complete (st : HandoffManagerState) (now : Nat) (hid : String) (res : Option JValue) :
      Reachable st → Reachable (complete_handoff st now hid res).1

theorem initiate_active_mem (st : HandoffManagerState) (now : Nat) (fetch : CatalogFetch)
    (trig : HttpOutcome) (hid sid msg : String) (ia : IntentAnalysis) (tgt : String) :
    ∀ p ∈ (initiate_handoff st now fetch trig hid sid msg ia tgt).1.active_handoffs,
      p ∈ st.active_handoffs ∨ allowedStatus p.2.status := by
  simp only [initiate_handoff]
  repeat' split
  all_goals
    intro p hp
    first
    | exact Or.inl hp
    | (rcases mem_setAssoc _ _ _ _ hp with h1 | h1
       · subst h1
         exact Or.inr (Or.inl rfl)
       · exact Or.inl h1)

theorem exec_active_mem (st : HandoffManagerState) (now : Nat) (fetch : CatalogFetch)
    (resp : HttpOutcome) (hid : String) (wid : Option String) :
    ∀ p ∈ (execute_workflow_handoff st now fetch resp hid wid).1.active_handoffs,
      p ∈ st.active_handoffs ∨ allowedStatus p.2.status := by
  cases h : lookupAssoc hid st.active_handoffs with
  | none =>
    simp only [execute_workflow_handoff, h]
    exact fun p hp => Or.inl hp
  | some hd =>
    simp only [execute_workflow_handoff, h]
    repeat' split
    all_goals
      intro p hp
      first
      | exact Or.inl hp
      | (rcases mem_setAssoc _ _ _ _ hp with h1 | h1
         · subst h1
           first
           | exact Or.inr (Or.inr (Or.inr (Or.inl rfl)))
           | exact Or.inr (Or.inr (Or.inr (Or.inr rfl)))
         · exact Or.inl h1)

theorem exec_history_eq (st : HandoffManagerState) (now : Nat) (fetch : CatalogFetch)
    (resp : HttpOutcome) (hid : String) (wid : Option String) :
    (execute_workflow_handoff st now fetch resp hid wid).1.handoff_history =
      st.handoff_history := by
  cases h : lookupAssoc hid st.active_handoffs with
  | none => simp [execute_workflow_handoff, h]
  | some hd =>
    simp only [execute_workflow_handoff, h]
    repeat' split
    all_goals rfl

theorem initiate_history_eq (st : HandoffManagerState) (now : Nat) (fetch : CatalogFetch)
    (trig : HttpOutcome) (hid sid msg : String) (ia : IntentAnalysis) (tgt : String) :
    (initiate_handoff st now fetch trig hid sid msg ia tgt).1.handoff_history =
      st.handoff_history := by
  simp only [initiate_handoff]
  repeat' split
  all_goals rfl

theorem complete_active_mem (st : HandoffManagerState) (now : Nat) (hid : String)
    (res : Option JValue) :
    ∀ p ∈ (complete_handoff st now hid res).1.active_handoffs, p ∈ st.active_handoffs := by
  cases h : lookupAssoc hid st.active_handoffs with
  | none =>
    simp only [complete_handoff, h]
    exact fun p hp => hp
  | some hd =>
    simp only [complete_handoff, h]
    exact fun p hp => mem_removeAssoc _ _ _ hp

theorem complete_history_mem (st : HandoffManagerState) (now : Nat) (hid : String)
    (res : Option JValue) :
    ∀ p ∈ (complete_handoff st now hid res).1.handoff_history,
      p ∈ st.handoff_history ∨ allowedStatus p.2.status := by
  cases h : lookupAssoc hid st.active_handoffs with
  | none =>
    simp only [complete_handoff, h]
    exact fun p hp => Or.inl hp
  | some hd =>
    simp only [complete_handoff, h]
    intro p hp
    rcases mem_setAssoc _ _ _ _ hp with h1 | h1
    · subst h1
      exact Or.inr (Or.inr (Or.inr (Or.inl rfl)))
    · exact Or.inl h1

/-- C10: the `cancelled` status is unreachable — in every state a fresh
handoff manager can reach through its operations, every record in the active
and history collections carries a status in
{in_progress, workflow_executing, completed, failed}. -/
theorem reachable_states_use_only_four_statuses (st : HandoffManagerState)
    (h : Reachable st) : statusInvariant st := by
  induction h with
  | init =>
    constructor <;> intro p hp <;> simp [initialState] at hp
  | refresh st now fetch force hr ih =>
    exact ⟨fun p hp => ih.1 p hp, fun p hp => ih.2 p hp⟩
  | decide_handoff st now fetch ia thr hr ih =>
    by_cases h : ia.confidence < thr
    · have hst : (should_handoff st now fetch ia thr).1 = st := by
        simp [should_handoff, h]
      rw [hst]
      exact ih
    · have hst : (should_handoff st now fetch ia thr).1 =
          (refresh_n8n_workflows st now fetch false).state := by
        simp [should_handoff, h]
      rw [hst]
      exact ⟨fun p hp => ih.1 p hp, fun p hp => ih.2 p hp⟩
  | initiate st now fetch trig hid sid msg ia tgt hr ih =>
    refine ⟨?_, ?_⟩
    · intro p hp
      rcases initiate_active_mem st now fetch trig hid sid msg ia tgt p hp with h1 | h1
      · exact ih.1 p h1
      · exact h1
    · intro p hp
      rw [initiate_history_eq] at hp
      exact ih.2 p hp
  | exec st now fetch resp hid wid hr ih =>
    refine ⟨?_, ?_⟩
    · intro p hp
      rcases exec_active_mem st now fetch resp hid wid p hp with h1 | h1
      · exact ih.1 p h1
      · exact h1
    · intro p hp
      rw [exec_history_eq] at hp
      exact ih.2 p hp
  | complete st now hid res hr ih =>
    refine ⟨?_, ?_⟩
    · intro p hp
      exact ih.1 p (complete_active_mem st now hid res p hp)
    · intro p hp
      rcases complete_history_mem st now hid res p hp with h1 | h1
      · exact ih.2 p h1
      · exact h1

/-- Witness for C10: the invariant at a concrete reachable state — after an
initiation followed by a failed execution. -/
theorem reachable_states_witness : statusInvariant stAfterFailedExec :=
  reachable_states_use_only_four_statuses stAfterFailedExec
    (Reachable.exec stAfterInitiate 20 fetchGerald (HttpOutcome.response 500 "boom" none)
      "h-1" none
      (Reachable.initiate initialState 10 fetchGerald
        (HttpOutcome.response 200 "rb" (some (JValue.obj []))) "h-1" "sess-1"
        "check my data" iaDataAnalysis "data_analysis" Reachable.init))

end AgenticBI

